import Mathlib

/-!
Shallow embedding of the PortOne webhook route (`src/unnamed/part_000`,
a Next.js route handler): the dispatcher `POST`, the two reconciliation
flows `handlePaidScenario` and `handleCancelledScenario`, the ledger
(Supabase table `payment`) modelled as an append-only list, and the
gateway interactions modelled as an explicit call trace.

External effects are modelled by an environment record per flow that
carries the outcome of each network / store call in program order
(the result of `GET /payments/{id}`, whether the Supabase insert
succeeds, the result of the schedule query, and the outcome of the
schedule-creation and schedule-cancel fetches as a `FetchOutcome`:
resolved with an ok response, resolved with a non-ok response, or
rejected/thrown), the injected clock `now`, the random minute draw
`Math.floor(Math.random() * 60)` (an element of `Fin 60`), and the
freshly minted `randomUUID`.

The Paid flow's schedule-creation fetch is NOT wrapped in `try`/`catch`
in the source: only a resolved non-ok response is swallowed, while a
rejected promise propagates to the dispatcher's catch and turns into a
failure response even though the insert already succeeded. The
Cancelled flow's whole schedule step IS wrapped in `try`/`catch`, so
there every outcome of the query and cancel calls is swallowed.

JavaScript `||` and `if (x)` on strings treat the empty string as
falsy; `truthyStr` / `truthyOpt` / `jsOr` embed that semantics.
-/

/-- Calendar timestamp as JavaScript `Date` field arithmetic uses it:
`setDate(getDate() + n)` shifts the day and keeps the time of day,
`setHours(h, m, s, 0)` replaces the time of day and keeps the day.
`day` counts calendar days from an arbitrary epoch. -/
structure DateTime where
  day : Int
  hour : Nat
  minute : Nat
  second : Nat
deriving Repr, DecidableEq

/-- `d.setDate(d.getDate() + n)`: add `n` days, keep the time of day. -/
def addDays (d : DateTime) (n : Int) : DateTime :=
  { d with day := d.day + n }

/-- `d.setHours(h, m, s, 0)`: replace the time of day, keep the day. -/
def setHours (d : DateTime) (h m s : Nat) : DateTime :=
  { d with hour := h, minute := m, second := s }

/-- Total seconds from the epoch, for comparing timestamps. -/
def DateTime.toSec (d : DateTime) : Int :=
  d.day * 86400 + (d.hour : Int) * 3600 + (d.minute : Int) * 60 + (d.second : Int)

/-- Inbound webhook body `{ payment_id, status }`. The TypeScript type
narrows `status` to the two known tags, but the dispatcher checks the
runtime value, so the embedding keeps it a plain string. -/
structure WebhookPayload where
  payment_id : String
  status : String
deriving Repr, DecidableEq

/-- `PortonePayment`: the gateway payment detail returned by
`GET /payments/{paymentId}`. Optional fields are `Option`. -/
structure PortonePayment where
  id : String
  paymentId : Option String
  amountTotal : Int
  orderName : String
  billingKey : Option String
  customerId : String
deriving Repr, DecidableEq

/-- `PaymentRecord`: one row of the `payment` table. `created_at` is
represented by the position in the ledger list (rows are only ever
appended, so list order is insertion order). -/
structure PaymentRecord where
  transaction_key : String
  amount : Int
  status : String
  start_at : DateTime
  end_at : DateTime
  end_grace_at : DateTime
  next_schedule_at : DateTime
  next_schedule_id : String
deriving Repr, DecidableEq

/-- One item of the gateway schedule-query response. -/
structure ScheduleItem where
  id : String
  paymentId : String
deriving Repr, DecidableEq

/-- Body of the `GET /payment-schedules` response; `items` is `none`
when the JSON lacks the array (the code guards with `items || []`). -/
structure PaymentScheduleResponse where
  items : Option (List ScheduleItem)
deriving Repr, DecidableEq

/-- JavaScript string truthiness: the empty string is falsy. -/
def truthyStr (s : String) : Bool :=
  s != ""

/-- Truthiness of an optional string: `undefined` and `""` are falsy. -/
def truthyOpt : Option String → Bool
  | some s => truthyStr s
  | none => false

/-- Coerce `undefined` to the falsy `""` for use in `||` chains. -/
def optStr : Option String → String
  | some s => s
  | none => ""

/-- JavaScript `a || b` on strings: `a` when truthy, else `b`. -/
def jsOr (a b : String) : String :=
  if truthyStr a then a else b

/-- The outbound gateway calls, recorded in program order. -/
inductive GatewayCall where
  | getPayment (paymentId : String)
  | createSchedule (scheduleId : String) (billingKey : String) (orderName : String)
      (customerId : String) (amountTotal : Int) (currency : String) (timeToPay : DateTime)
  | querySchedules (billingKey : String) (fromDate : DateTime) (untilDate : DateTime)
  | cancelSchedules (scheduleIds : List String)
deriving Repr, DecidableEq

def GatewayCall.isCreateSchedule : GatewayCall → Bool
  | .createSchedule _ _ _ _ _ _ _ => true
  | _ => false

def GatewayCall.isQuerySchedules : GatewayCall → Bool
  | .querySchedules _ _ _ => true
  | _ => false

def GatewayCall.isCancelSchedules : GatewayCall → Bool
  | .cancelSchedules _ => true
  | _ => false

/-- The JSON responses the route can produce: the handler success body
`{ success: true, message, payment }`, the bare `{ success: true }` of
the unknown-status branch, and the 500 `{ success: false, error }`. -/
inductive Response where
  | ok (message : String) (payment : PaymentRecord)
  | okEmpty
  | failure (error : String)
deriving Repr, DecidableEq

/-- Outcome of one flow: the thrown-or-returned result, the ledger
after the flow, and the gateway calls it made. -/
structure FlowOut where
  result : Except String Response
  ledger : List PaymentRecord
  calls : List GatewayCall
deriving Repr

/-- Outcome of an awaited `fetch` whose response is then tested with
`.ok`: the promise resolves with an ok response, resolves with a
non-ok response, or rejects — a rejection throws the carried error
into the enclosing control flow. -/
inductive FetchOutcome where
  | ok
  | notOk
  | thrown (e : String)
deriving Repr, DecidableEq

/-- A fetch that resolved (did not reject): response ok iff `b`. -/
def resolvedOutcome (b : Bool) : FetchOutcome :=
  if b then .ok else .notOk

/-- Environment of `handlePaidScenario`: outcome of each external
interaction in program order, plus clock, random minute and fresh id. -/
structure PaidEnv where
  payment : Except String PortonePayment
  now : DateTime
  randMinute : Fin 60
  nextScheduleId : String
  insertOk : Bool
  scheduleCreate : FetchOutcome

/-- Environment of `handleCancelledScenario`. `queryResult` is the
outcome of the axios schedule query, which throws on any failure;
`cancelOutcome` is the outcome of the cancel fetch — the surrounding
`try`/`catch` swallows a thrown cancel just as the `.ok` test only
logs a non-ok one, so no value of it changes the flow's output. -/
structure CancelledEnv where
  payment : Except String PortonePayment
  insertOk : Bool
  queryResult : Except String PaymentScheduleResponse
  cancelOutcome : FetchOutcome

/-- The row the Paid flow inserts: the date computation of lines
110-142 of the route (`start_at = now`, `end_at = now + 30 days`,
`end_grace_at = now + 31 days`, `next_schedule_at = (end_at + 1 day)`
with the time of day set to `10:rand:00`). -/
def paidRecord (paymentId : String) (p : PortonePayment) (now : DateTime)
    (randMinute : Fin 60) (nextScheduleId : String) : PaymentRecord :=
  let endAt := addDays now 30
  let endGraceAt := addDays now 31
  let nextScheduleAt := setHours (addDays endAt 1) 10 randMinute.val 0
  { transaction_key := paymentId
    amount := p.amountTotal
    status := "Paid"
    start_at := now
    end_at := endAt
    end_grace_at := endGraceAt
    next_schedule_at := nextScheduleAt
    next_schedule_id := nextScheduleId }

/-- `handlePaidScenario`: fetch the payment, compute the window,
insert the `Paid` row, then (only when `billingKey` is truthy)
register next month's schedule. A non-ok schedule-creation response is
only logged; but the schedule-creation fetch has no `try`/`catch`
around it, so a rejected fetch throws out of the handler (after the
insert already happened), as do a failed payment lookup or insert. -/
def handlePaidScenario (paymentId : String) (env : PaidEnv)
    (ledger : List PaymentRecord) : FlowOut :=
  let calls0 := [GatewayCall.getPayment paymentId]
  match env.payment with
  | .error e => ⟨.error ("포트원 결제 정보 조회 실패: " ++ e), ledger, calls0⟩
  | .ok paymentData =>
    let record := paidRecord paymentId paymentData env.now env.randMinute env.nextScheduleId
    if env.insertOk then
      let ledger1 := ledger ++ [record]
      let response := Response.ok "웹훅 처리 완료" record
      if truthyOpt paymentData.billingKey then
        let calls1 := calls0 ++ [GatewayCall.createSchedule env.nextScheduleId
          (optStr paymentData.billingKey) paymentData.orderName paymentData.customerId
          paymentData.amountTotal "KRW" record.next_schedule_at]
        match env.scheduleCreate with
        | .thrown e => ⟨.error e, ledger1, calls1⟩
        | _ => ⟨.ok response, ledger1, calls1⟩
      else
        ⟨.ok response, ledger1, calls0⟩
    else
      ⟨.error "Supabase 저장 실패", ledger, calls0⟩

/-- The canonical lookup key of the Cancelled flow, line 223 of the
route: `paymentData.paymentId || paymentData.id || paymentId`
(JavaScript `||`, so empty strings fall through). -/
def actualPaymentIdOf (p : PortonePayment) (webhookPaymentId : String) : String :=
  jsOr (jsOr (optStr p.paymentId) p.id) webhookPaymentId

/-- The Supabase query of lines 226-233: rows with
`transaction_key = key` and `status = 'Paid'`, ordered by `created_at`
descending, limit 1 — the last inserted matching row. -/
def findLatestPaid (ledger : List PaymentRecord) (key : String) : Option PaymentRecord :=
  ledger.reverse.find? (fun r => r.transaction_key == key && r.status == "Paid")

/-- The reversal row of lines 243-252: same key, negated amount,
status `Cancel`, window fields copied from the found entry. -/
def cancelRecordOf (existing : PaymentRecord) : PaymentRecord :=
  { transaction_key := existing.transaction_key
    amount := -existing.amount
    status := "Cancel"
    start_at := existing.start_at
    end_at := existing.end_at
    end_grace_at := existing.end_grace_at
    next_schedule_at := existing.next_schedule_at
    next_schedule_id := existing.next_schedule_id }

/-- `handleCancelledScenario`: fetch the payment, resolve the
canonical key, find the latest `Paid` row (throw if none), insert the
reversal row, then — when `billingKey` and the found row's
`next_schedule_at` / `next_schedule_id` are truthy (`next_schedule_at`
is a non-empty ISO string on every row this route writes, hence always
truthy; `next_schedule_id` is truthy iff non-empty) — query schedules
in `next_schedule_at ± 1 day`, pick the first item whose `paymentId`
matches `next_schedule_id`, and cancel it. The whole schedule step is
inside `try`/`catch`: its failures never change the returned result. -/
def handleCancelledScenario (paymentId : String) (env : CancelledEnv)
    (ledger : List PaymentRecord) : FlowOut :=
  let calls0 := [GatewayCall.getPayment paymentId]
  match env.payment with
  | .error e => ⟨.error ("포트원 결제 정보 조회 실패: " ++ e), ledger, calls0⟩
  | .ok paymentData =>
    let actualPaymentId := actualPaymentIdOf paymentData paymentId
    match findLatestPaid ledger actualPaymentId with
    | none => ⟨.error "기존 결제 정보를 찾을 수 없습니다: 데이터 없음", ledger, calls0⟩
    | some existingPayment =>
      let cancelRecord := cancelRecordOf existingPayment
      if env.insertOk then
        let ledger1 := ledger ++ [cancelRecord]
        let response := Response.ok "취소 처리 완료" cancelRecord
        if truthyOpt paymentData.billingKey && truthyStr existingPayment.next_schedule_id then
          let fromDate := addDays existingPayment.next_schedule_at (-1)
          let untilDate := addDays existingPayment.next_schedule_at 1
          let calls1 := calls0 ++ [GatewayCall.querySchedules
            (optStr paymentData.billingKey) fromDate untilDate]
          match env.queryResult with
          | .error _ => ⟨.ok response, ledger1, calls1⟩
          | .ok resp =>
            let scheduleItems := resp.items.getD []
            match scheduleItems.find? (fun it => it.paymentId == existingPayment.next_schedule_id) with
            | some targetSchedule =>
              ⟨.ok response, ledger1, calls1 ++ [GatewayCall.cancelSchedules [targetSchedule.id]]⟩
            | none => ⟨.ok response, ledger1, calls1⟩
        else
          ⟨.ok response, ledger1, calls0⟩
      else
        ⟨.error "Supabase 취소 정보 저장 실패", ledger, calls0⟩

/-- Render a flow outcome the way the dispatcher's `try`/`catch`
does: a thrown error becomes the 500 `{ success: false, error }`. -/
def renderFlow (fo : FlowOut) : Response × List PaymentRecord × List GatewayCall :=
  match fo.result with
  | .ok r => (r, fo.ledger, fo.calls)
  | .error e => (Response.failure e, fo.ledger, fo.calls)

/-- The route's `POST`: dispatch on the status tag; any other tag is
acknowledged with the bare `{ success: true }` and nothing happens. -/
def POST (payload : WebhookPayload) (paidEnv : PaidEnv) (cancelledEnv : CancelledEnv)
    (ledger : List PaymentRecord) : Response × List PaymentRecord × List GatewayCall :=
  if payload.status == "Paid" then
    renderFlow (handlePaidScenario payload.payment_id paidEnv ledger)
  else if payload.status == "Cancelled" then
    renderFlow (handleCancelledScenario payload.payment_id cancelledEnv ledger)
  else
    (Response.okEmpty, ledger, [])

/-- The gateway calls of the schedule step of the Cancelled flow
(lines 268-341), as a function of the environment. -/
def cancelStepCalls (p : PortonePayment) (f : PaymentRecord)
    (qres : Except String PaymentScheduleResponse) : List GatewayCall :=
  if truthyOpt p.billingKey && truthyStr f.next_schedule_id then
    GatewayCall.querySchedules (optStr p.billingKey)
        (addDays f.next_schedule_at (-1)) (addDays f.next_schedule_at 1) ::
      (match qres with
       | .error _ => []
       | .ok resp =>
         match (resp.items.getD []).find? (fun it => it.paymentId == f.next_schedule_id) with
         | some it => [GatewayCall.cancelSchedules [it.id]]
         | none => [])
  else []

lemma handlePaidScenario_ok (paymentId : String) (p : PortonePayment) (now : DateTime)
    (m : Fin 60) (sid : String) (sc : FetchOutcome) (ledger : List PaymentRecord) :
    handlePaidScenario paymentId ⟨.ok p, now, m, sid, true, sc⟩ ledger =
      ⟨(if truthyOpt p.billingKey then
          match sc with
          | .thrown e => .error e
          | _ => .ok (Response.ok "웹훅 처리 완료" (paidRecord paymentId p now m sid))
        else .ok (Response.ok "웹훅 처리 완료" (paidRecord paymentId p now m sid))),
       ledger ++ [paidRecord paymentId p now m sid],
       GatewayCall.getPayment paymentId ::
         (if truthyOpt p.billingKey then
            [GatewayCall.createSchedule sid (optStr p.billingKey) p.orderName p.customerId
              p.amountTotal "KRW" (paidRecord paymentId p now m sid).next_schedule_at]
          else [])⟩ := by
  cases hb : truthyOpt p.billingKey <;> cases sc <;> simp [handlePaidScenario, hb]

lemma handleCancelledScenario_ok (paymentId : String) (p : PortonePayment)
    (qres : Except String PaymentScheduleResponse) (cOk : FetchOutcome)
    (ledger : List PaymentRecord) (f : PaymentRecord)
    (hf : findLatestPaid ledger (actualPaymentIdOf p paymentId) = some f) :
    handleCancelledScenario paymentId ⟨.ok p, true, qres, cOk⟩ ledger =
      ⟨.ok (Response.ok "취소 처리 완료" (cancelRecordOf f)),
       ledger ++ [cancelRecordOf f],
       GatewayCall.getPayment paymentId :: cancelStepCalls p f qres⟩ := by
  cases hg : (truthyOpt p.billingKey && truthyStr f.next_schedule_id) with
  | false => simp [handleCancelledScenario, hf, hg, cancelStepCalls]
  | true =>
    cases qres with
    | error e => simp [handleCancelledScenario, hf, hg, cancelStepCalls]
    | ok resp =>
      cases hfind : (resp.items.getD []).find? (fun it => it.paymentId == f.next_schedule_id) <;>
        simp [handleCancelledScenario, hf, hg, cancelStepCalls, hfind]

lemma handleCancelledScenario_notFound (paymentId : String) (p : PortonePayment)
    (iOk : Bool) (qres : Except String PaymentScheduleResponse) (cOk : FetchOutcome)
    (ledger : List PaymentRecord)
    (hf : findLatestPaid ledger (actualPaymentIdOf p paymentId) = none) :
    handleCancelledScenario paymentId ⟨.ok p, iOk, qres, cOk⟩ ledger =
      ⟨.error "기존 결제 정보를 찾을 수 없습니다: 데이터 없음", ledger,
       [GatewayCall.getPayment paymentId]⟩ := by
  simp [handleCancelledScenario, hf]

/-- **C1.** For every valid `Paid` event handled at clock time `now`
(the payment lookup succeeds and the insert succeeds), the inserted
ledger entry has `status = Paid`, `transaction_key` equal to the
webhook's `payment_id`, `amount` equal to the gateway payment detail's
amount total, `start_at = now`, `end_at = start_at + 30 days`,
`end_grace_at = end_at + 1 day`, and `next_schedule_at` on the day
`end_at + 1 day` at hour 10, minute drawn from the random source in
`[0, 59]`, seconds zeroed — hence within
`[end_at + 1 day 10:00:00, end_at + 1 day 10:59:59]`. The row is
inserted whatever the later schedule-creation fetch does: also when
that fetch rejects, the appended row is the same. -/
theorem paid_flow_inserts_period_row (paymentId : String) (p : PortonePayment)
    (now : DateTime) (m : Fin 60) (sid : String) (schedOk : Bool)
    (ledger : List PaymentRecord) :
    ∃ r : PaymentRecord,
      (handlePaidScenario paymentId ⟨.ok p, now, m, sid, true, resolvedOutcome schedOk⟩
          ledger).ledger = ledger ++ [r] ∧
      (handlePaidScenario paymentId ⟨.ok p, now, m, sid, true, resolvedOutcome schedOk⟩
          ledger).result = .ok (Response.ok "웹훅 처리 완료" r) ∧
      (∀ e : String,
        (handlePaidScenario paymentId ⟨.ok p, now, m, sid, true, .thrown e⟩
          ledger).ledger = ledger ++ [r]) ∧
      r.status = "Paid" ∧
      r.transaction_key = paymentId ∧
      r.amount = p.amountTotal ∧
      r.start_at = now ∧
      r.end_at = addDays r.start_at 30 ∧
      r.end_grace_at = addDays r.end_at 1 ∧
      r.next_schedule_at.day = (addDays r.end_at 1).day ∧
      r.next_schedule_at.hour = 10 ∧
      r.next_schedule_at.minute = m.val ∧
      r.next_schedule_at.minute ≤ 59 ∧
      r.next_schedule_at.second = 0 ∧
      (setHours (addDays r.end_at 1) 10 0 0).toSec ≤ r.next_schedule_at.toSec ∧
      r.next_schedule_at.toSec ≤ (setHours (addDays r.end_at 1) 10 59 59).toSec := by
  have hm : m.val < 60 := m.isLt
  refine ⟨paidRecord paymentId p now m sid, ?_, ?_, ?_, rfl, rfl, rfl, rfl,
    ?_, ?_, ?_, ?_, ?_, ?_, ?_, ?_, ?_⟩
  · rw [handlePaidScenario_ok]
  · rw [handlePaidScenario_ok]
    cases hb : truthyOpt p.billingKey <;> cases schedOk <;> simp [hb, resolvedOutcome]
  · intro e
    rw [handlePaidScenario_ok]
  all_goals simp only [paidRecord, addDays, setHours, DateTime.toSec, DateTime.mk.injEq,
    and_true, true_and]
  all_goals omega

/-- Concrete clock value used by closed witness statements. -/
def d0 : DateTime := ⟨0, 0, 0, 0⟩

/-- Concrete random minute draw used by closed witness statements. -/
def m7 : Fin 60 := ⟨7, by omega⟩

/-- Concrete gateway payment detail used by closed witness statements. -/
def samplePaid : PortonePayment :=
  { id := "pay_1", paymentId := none, amountTotal := 9900, orderName := "구독",
    billingKey := some "bk_1", customerId := "cust_1" }

/-- A concrete `Paid` ledger row used by closed witness statements. -/
def sampleRow : PaymentRecord := paidRecord "pay_1" samplePaid d0 m7 "uuid-1"

/-- **C2.** For every `Cancelled` event for which a most-recent prior
`Paid` ledger row exists under the resolved canonical key (and the
insert succeeds), the handler appends exactly one reversal row with
the same `transaction_key`, negated `amount`, `status = Cancel`, and
`start_at`, `end_at`, `end_grace_at`, `next_schedule_at`,
`next_schedule_id` copied verbatim from the found `Paid` row, and
returns that inserted row to the caller. -/
theorem cancelled_flow_inserts_reversal_row (pid : String) (p : PortonePayment)
    (qres : Except String PaymentScheduleResponse) (cOk : FetchOutcome)
    (ledger : List PaymentRecord) (f : PaymentRecord)
    (hf : findLatestPaid ledger (actualPaymentIdOf p pid) = some f) :
    ∃ rev : PaymentRecord,
      (handleCancelledScenario pid ⟨.ok p, true, qres, cOk⟩ ledger).ledger
          = ledger ++ [rev] ∧
      (handleCancelledScenario pid ⟨.ok p, true, qres, cOk⟩ ledger).result
          = .ok (Response.ok "취소 처리 완료" rev) ∧
      rev.transaction_key = f.transaction_key ∧
      rev.amount = -f.amount ∧
      rev.status = "Cancel" ∧
      rev.start_at = f.start_at ∧
      rev.end_at = f.end_at ∧
      rev.end_grace_at = f.end_grace_at ∧
      rev.next_schedule_at = f.next_schedule_at ∧
      rev.next_schedule_id = f.next_schedule_id := by
  refine ⟨cancelRecordOf f, ?_, ?_, rfl, rfl, rfl, rfl, rfl, rfl, rfl, rfl⟩
  · rw [handleCancelledScenario_ok pid p qres cOk ledger f hf]
  · rw [handleCancelledScenario_ok pid p qres cOk ledger f hf]

theorem cancelled_flow_inserts_reversal_row_witness :
    findLatestPaid [sampleRow] (actualPaymentIdOf samplePaid "pay_1") = some sampleRow ∧
    (∃ rev : PaymentRecord,
      (handleCancelledScenario "pay_1" ⟨.ok samplePaid, true, .error "down", .ok⟩
          [sampleRow]).ledger = [sampleRow] ++ [rev] ∧
      (handleCancelledScenario "pay_1" ⟨.ok samplePaid, true, .error "down", .ok⟩
          [sampleRow]).result = .ok (Response.ok "취소 처리 완료" rev) ∧
      rev.transaction_key = sampleRow.transaction_key ∧
      rev.amount = -sampleRow.amount ∧
      rev.status = "Cancel" ∧
      rev.start_at = sampleRow.start_at ∧
      rev.end_at = sampleRow.end_at ∧
      rev.end_grace_at = sampleRow.end_grace_at ∧
      rev.next_schedule_at = sampleRow.next_schedule_at ∧
      rev.next_schedule_id = sampleRow.next_schedule_id) :=
  ⟨rfl, cancelled_flow_inserts_reversal_row "pay_1" samplePaid (.error "down") .ok
    [sampleRow] sampleRow rfl⟩

/-- **C3.** A `Cancelled` event whose resolved canonical key has no
`Paid` ledger row fails — the `NotFoundError` thrown by the handler is
rendered by the dispatcher as a failure response — and performs no
ledger insert: the ledger is unchanged by the invocation. -/
theorem cancelled_without_prior_paid_fails (pid : String) (p : PortonePayment)
    (iOk : Bool) (qres : Except String PaymentScheduleResponse) (cOk : FetchOutcome)
    (penv : PaidEnv) (ledger : List PaymentRecord)
    (hf : findLatestPaid ledger (actualPaymentIdOf p pid) = none) :
    POST ⟨pid, "Cancelled"⟩ penv ⟨.ok p, iOk, qres, cOk⟩ ledger
      = (Response.failure "기존 결제 정보를 찾을 수 없습니다: 데이터 없음", ledger,
         [GatewayCall.getPayment pid]) := by
  have h1 : (("Cancelled" : String) == "Paid") = false := by decide
  have h2 : (("Cancelled" : String) == "Cancelled") = true := by decide
  simp [POST, h1, h2, renderFlow,
    handleCancelledScenario_notFound pid p iOk qres cOk ledger hf]

theorem cancelled_without_prior_paid_fails_witness :
    findLatestPaid [] (actualPaymentIdOf samplePaid "pay_1") = none ∧
    POST ⟨"pay_1", "Cancelled"⟩ ⟨.error "down", d0, m7, "uuid-1", true, .ok⟩
        ⟨.ok samplePaid, true, .error "down", .ok⟩ []
      = (Response.failure "기존 결제 정보를 찾을 수 없습니다: 데이터 없음", [],
         [GatewayCall.getPayment "pay_1"]) :=
  ⟨rfl, cancelled_without_prior_paid_fails "pay_1" samplePaid true (.error "down") .ok
    ⟨.error "down", d0, m7, "uuid-1", true, .ok⟩ [] rfl⟩

/-- **C4, counterexample.** A Paid event with a non-empty `billingKey`
whose schedule-creation fetch rejects: the insert has already
succeeded (the row is in the ledger and the `createSchedule` call was
made), yet — the Paid flow has no `try`/`catch` around its schedule
step, unlike the Cancelled flow — the thrown error escapes the handler
and the dispatcher renders a failure response, falsifying the claim's
"never a failure response". -/
theorem schedule_failures_claim_cex :
    (handlePaidScenario "pay_1"
        ⟨.ok samplePaid, d0, m7, "uuid-3", true, .thrown "TypeError: fetch failed"⟩
        []).ledger = [paidRecord "pay_1" samplePaid d0 m7 "uuid-3"] ∧
    (handlePaidScenario "pay_1"
        ⟨.ok samplePaid, d0, m7, "uuid-3", true, .thrown "TypeError: fetch failed"⟩
        []).result = .error "TypeError: fetch failed" ∧
    POST ⟨"pay_1", "Paid"⟩
        ⟨.ok samplePaid, d0, m7, "uuid-3", true, .thrown "TypeError: fetch failed"⟩
        ⟨.ok samplePaid, true, .error "down", .ok⟩ []
      = (Response.failure "TypeError: fetch failed",
         [paidRecord "pay_1" samplePaid d0 m7 "uuid-3"],
         [GatewayCall.getPayment "pay_1",
          GatewayCall.createSchedule "uuid-3" "bk_1" "구독" "cust_1" 9900 "KRW"
            (paidRecord "pay_1" samplePaid d0 m7 "uuid-3").next_schedule_at]) :=
  ⟨rfl, rfl, rfl⟩

/-- **C4, amended.** Once the ledger insert has succeeded, every
failure of the Cancelled flow's schedule step (schedule lookup or
schedule cancel, thrown or non-ok — the whole step is wrapped in
`try`/`catch`) and every non-ok schedule-creation response in the Paid
flow is logged and swallowed: the handler returns the success response
of the no-failure run. The exception the counterexample forces: a
rejected (thrown) schedule-creation fetch in the Paid flow propagates
and yields a failure response, while the inserted row persists after
the failure. -/
theorem schedule_failures_swallowed_amended (pid i : String) (pOpt : Option String)
    (amt : Int) (ord cust s : String) (hs : s ≠ "") (now : DateTime) (m : Fin 60)
    (sid e : String) (q1 q2 : Except String PaymentScheduleResponse)
    (c1 c2 : FetchOutcome) (led ledgerC : List PaymentRecord) (f : PaymentRecord)
    (hf : findLatestPaid ledgerC (actualPaymentIdOf ⟨i, pOpt, amt, ord, some s, cust⟩ pid)
      = some f) :
    (handlePaidScenario pid ⟨.ok ⟨i, pOpt, amt, ord, some s, cust⟩, now, m, sid, true, .notOk⟩
        led).result
      = .ok (Response.ok "웹훅 처리 완료"
          (paidRecord pid ⟨i, pOpt, amt, ord, some s, cust⟩ now m sid)) ∧
    (handlePaidScenario pid ⟨.ok ⟨i, pOpt, amt, ord, some s, cust⟩, now, m, sid, true, .notOk⟩
        led).result
      = (handlePaidScenario pid ⟨.ok ⟨i, pOpt, amt, ord, some s, cust⟩, now, m, sid, true, .ok⟩
        led).result ∧
    (handlePaidScenario pid
        ⟨.ok ⟨i, pOpt, amt, ord, some s, cust⟩, now, m, sid, true, .thrown e⟩ led).result
      = .error e ∧
    (handlePaidScenario pid
        ⟨.ok ⟨i, pOpt, amt, ord, some s, cust⟩, now, m, sid, true, .thrown e⟩ led).ledger
      = led ++ [paidRecord pid ⟨i, pOpt, amt, ord, some s, cust⟩ now m sid] ∧
    (handleCancelledScenario pid ⟨.ok ⟨i, pOpt, amt, ord, some s, cust⟩, true, q1, c1⟩
        ledgerC).result
      = .ok (Response.ok "취소 처리 완료" (cancelRecordOf f)) ∧
    (handleCancelledScenario pid ⟨.ok ⟨i, pOpt, amt, ord, some s, cust⟩, true, q1, c1⟩
        ledgerC).result
      = (handleCancelledScenario pid ⟨.ok ⟨i, pOpt, amt, ord, some s, cust⟩, true, q2, c2⟩
        ledgerC).result := by
  have ht : truthyOpt (some s) = true := by
    simp [truthyOpt, truthyStr, hs]
  rw [handlePaidScenario_ok, handlePaidScenario_ok, handlePaidScenario_ok,
    handleCancelledScenario_ok pid ⟨i, pOpt, amt, ord, some s, cust⟩ q1 c1 ledgerC f hf,
    handleCancelledScenario_ok pid ⟨i, pOpt, amt, ord, some s, cust⟩ q2 c2 ledgerC f hf]
  simp [ht]

theorem schedule_failures_swallowed_amended_witness :
    ("bk_1" : String) ≠ "" ∧
    findLatestPaid [sampleRow]
        (actualPaymentIdOf ⟨"pay_1", none, 9900, "구독", some "bk_1", "cust_1"⟩ "pay_1")
      = some sampleRow ∧
    ((handlePaidScenario "pay_1"
        ⟨.ok ⟨"pay_1", none, 9900, "구독", some "bk_1", "cust_1"⟩, d0, m7, "uuid-3", true,
          .notOk⟩ []).result
      = .ok (Response.ok "웹훅 처리 완료"
          (paidRecord "pay_1" ⟨"pay_1", none, 9900, "구독", some "bk_1", "cust_1"⟩
            d0 m7 "uuid-3")) ∧
    (handlePaidScenario "pay_1"
        ⟨.ok ⟨"pay_1", none, 9900, "구독", some "bk_1", "cust_1"⟩, d0, m7, "uuid-3", true,
          .notOk⟩ []).result
      = (handlePaidScenario "pay_1"
        ⟨.ok ⟨"pay_1", none, 9900, "구독", some "bk_1", "cust_1"⟩, d0, m7, "uuid-3", true,
          .ok⟩ []).result ∧
    (handlePaidScenario "pay_1"
        ⟨.ok ⟨"pay_1", none, 9900, "구독", some "bk_1", "cust_1"⟩, d0, m7, "uuid-3", true,
          .thrown "NetworkError"⟩ []).result
      = .error "NetworkError" ∧
    (handlePaidScenario "pay_1"
        ⟨.ok ⟨"pay_1", none, 9900, "구독", some "bk_1", "cust_1"⟩, d0, m7, "uuid-3", true,
          .thrown "NetworkError"⟩ []).ledger
      = [] ++ [paidRecord "pay_1" ⟨"pay_1", none, 9900, "구독", some "bk_1", "cust_1"⟩
          d0 m7 "uuid-3"] ∧
    (handleCancelledScenario "pay_1"
        ⟨.ok ⟨"pay_1", none, 9900, "구독", some "bk_1", "cust_1"⟩, true, .error "down",
          .thrown "x"⟩ [sampleRow]).result
      = .ok (Response.ok "취소 처리 완료" (cancelRecordOf sampleRow)) ∧
    (handleCancelledScenario "pay_1"
        ⟨.ok ⟨"pay_1", none, 9900, "구독", some "bk_1", "cust_1"⟩, true, .error "down",
          .thrown "x"⟩ [sampleRow]).result
      = (handleCancelledScenario "pay_1"
        ⟨.ok ⟨"pay_1", none, 9900, "구독", some "bk_1", "cust_1"⟩, true, .ok ⟨some []⟩,
          .ok⟩ [sampleRow]).result) :=
  ⟨by decide, rfl,
    schedule_failures_swallowed_amended "pay_1" "pay_1" none 9900 "구독" "cust_1" "bk_1"
      (by decide) d0 m7 "uuid-3" "NetworkError" (.error "down") (.ok ⟨some []⟩)
      (.thrown "x") .ok [] [sampleRow] sampleRow rfl⟩

/-- **C5.** Handling the identical `Paid` event twice performs two
unconditional ledger inserts: the second run appends a second row
(identical in value in this embedding, where `created_at` and the row
id are the position in the list) instead of detecting the first, so
the ledger grows by two rows and both runs succeed — the Paid handler
is not idempotent under redelivery, for every input on which it
succeeds. -/
theorem paid_flow_not_idempotent (pid : String) (p : PortonePayment) (now : DateTime)
    (m : Fin 60) (sid : String) (schedOk : Bool) (ledger : List PaymentRecord) :
    (handlePaidScenario pid ⟨.ok p, now, m, sid, true, resolvedOutcome schedOk⟩ ledger).ledger
        = ledger ++ [paidRecord pid p now m sid] ∧
    (handlePaidScenario pid ⟨.ok p, now, m, sid, true, resolvedOutcome schedOk⟩
        ((handlePaidScenario pid ⟨.ok p, now, m, sid, true, resolvedOutcome schedOk⟩ ledger).ledger)).ledger
        = ledger ++ [paidRecord pid p now m sid, paidRecord pid p now m sid] ∧
    (handlePaidScenario pid ⟨.ok p, now, m, sid, true, resolvedOutcome schedOk⟩
        ((handlePaidScenario pid ⟨.ok p, now, m, sid, true, resolvedOutcome schedOk⟩ ledger).ledger)).ledger.length
        = ledger.length + 2 ∧
    (handlePaidScenario pid ⟨.ok p, now, m, sid, true, resolvedOutcome schedOk⟩ ledger).result
        = .ok (Response.ok "웹훅 처리 완료" (paidRecord pid p now m sid)) ∧
    (handlePaidScenario pid ⟨.ok p, now, m, sid, true, resolvedOutcome schedOk⟩
        ((handlePaidScenario pid ⟨.ok p, now, m, sid, true, resolvedOutcome schedOk⟩ ledger).ledger)).result
        = .ok (Response.ok "웹훅 처리 완료" (paidRecord pid p now m sid)) := by
  cases hb : truthyOpt p.billingKey <;> cases schedOk <;>
    simp [handlePaidScenario_ok, hb, resolvedOutcome]

/-- **C6.** For every event whose gateway payment detail lacks a
`billingKey`, the Paid flow makes no schedule-creation call and the
Cancelled flow makes no schedule-query or schedule-cancel call (each
flow's only gateway call is the payment lookup), and both flows still
succeed (given the insert succeeds and, for the Cancelled flow, a
prior `Paid` row exists). -/
theorem absent_billing_key_skips_schedule_calls (pid i : String) (pOpt : Option String)
    (amt : Int) (ord cust : String) (now : DateTime) (m : Fin 60) (sid : String)
    (schedOk : Bool) (qres : Except String PaymentScheduleResponse) (cOk : FetchOutcome)
    (ledger : List PaymentRecord) (f : PaymentRecord)
    (hf : findLatestPaid ledger (actualPaymentIdOf ⟨i, pOpt, amt, ord, none, cust⟩ pid)
      = some f) :
    (handlePaidScenario pid ⟨.ok ⟨i, pOpt, amt, ord, none, cust⟩, now, m, sid, true, resolvedOutcome schedOk⟩
        ledger).calls = [GatewayCall.getPayment pid] ∧
    (handlePaidScenario pid ⟨.ok ⟨i, pOpt, amt, ord, none, cust⟩, now, m, sid, true, resolvedOutcome schedOk⟩
        ledger).result
      = .ok (Response.ok "웹훅 처리 완료" (paidRecord pid ⟨i, pOpt, amt, ord, none, cust⟩ now m sid)) ∧
    (handleCancelledScenario pid ⟨.ok ⟨i, pOpt, amt, ord, none, cust⟩, true, qres, cOk⟩
        ledger).calls = [GatewayCall.getPayment pid] ∧
    (handleCancelledScenario pid ⟨.ok ⟨i, pOpt, amt, ord, none, cust⟩, true, qres, cOk⟩
        ledger).result = .ok (Response.ok "취소 처리 완료" (cancelRecordOf f)) := by
  rw [handlePaidScenario_ok pid ⟨i, pOpt, amt, ord, none, cust⟩ now m sid (resolvedOutcome schedOk) ledger,
    handleCancelledScenario_ok pid ⟨i, pOpt, amt, ord, none, cust⟩ qres cOk ledger f hf]
  simp [truthyOpt, cancelStepCalls]

theorem absent_billing_key_skips_schedule_calls_witness :
    findLatestPaid [sampleRow]
        (actualPaymentIdOf ⟨"pay_1", none, 9900, "구독", none, "cust_1"⟩ "pay_1")
      = some sampleRow ∧
    ((handlePaidScenario "pay_1"
        ⟨.ok ⟨"pay_1", none, 9900, "구독", none, "cust_1"⟩, d0, m7, "uuid-2", true, .ok⟩
        [sampleRow]).calls = [GatewayCall.getPayment "pay_1"] ∧
    (handlePaidScenario "pay_1"
        ⟨.ok ⟨"pay_1", none, 9900, "구독", none, "cust_1"⟩, d0, m7, "uuid-2", true, .ok⟩
        [sampleRow]).result
      = .ok (Response.ok "웹훅 처리 완료"
          (paidRecord "pay_1" ⟨"pay_1", none, 9900, "구독", none, "cust_1"⟩ d0 m7 "uuid-2")) ∧
    (handleCancelledScenario "pay_1"
        ⟨.ok ⟨"pay_1", none, 9900, "구독", none, "cust_1"⟩, true, .error "down", .ok⟩
        [sampleRow]).calls = [GatewayCall.getPayment "pay_1"] ∧
    (handleCancelledScenario "pay_1"
        ⟨.ok ⟨"pay_1", none, 9900, "구독", none, "cust_1"⟩, true, .error "down", .ok⟩
        [sampleRow]).result = .ok (Response.ok "취소 처리 완료" (cancelRecordOf sampleRow))) :=
  ⟨rfl, absent_billing_key_skips_schedule_calls "pay_1" "pay_1" none 9900 "구독" "cust_1"
    d0 m7 "uuid-2" true (.error "down") .ok [sampleRow] sampleRow rfl⟩

/-- The canonical-key rule exactly as the claim words it: the detail's
`paymentId` field if present, else the detail's `id` field (always
present in this model), else the webhook's `payment_id`. Stated from
the spec's words, for comparison with `actualPaymentIdOf`. -/
def claimedCanonicalKey (p : PortonePayment) (_webhookPaymentId : String) : String :=
  match p.paymentId with
  | some s => s
  | none => p.id

/-- The canonical-key rule the code implements, restated in the
amended claim's words: the detail's `paymentId` field if present and
non-empty, else the detail's `id` field if non-empty, else the
webhook's `payment_id`. -/
def amendedCanonicalKey (p : PortonePayment) (webhookPaymentId : String) : String :=
  match p.paymentId with
  | some s =>
    if s = "" then (if p.id = "" then webhookPaymentId else p.id) else s
  | none => if p.id = "" then webhookPaymentId else p.id

/-- **C7, counterexample.** A gateway payment detail whose `paymentId`
field is present but empty: the claim's precedence resolves the key to
`""`, a `Paid` ledger row with `transaction_key = ""` exists, yet the
handler fails with the not-found error — JavaScript `||` skipped the
present-but-empty field, so the ledger query did not use the claim's
key. -/
theorem cancelled_lookup_key_precedence_cex :
    (⟨"pid_A", some "", 100, "o", none, "c"⟩ : PortonePayment).paymentId.isSome = true ∧
    claimedCanonicalKey ⟨"pid_A", some "", 100, "o", none, "c"⟩ "wh" = "" ∧
    actualPaymentIdOf ⟨"pid_A", some "", 100, "o", none, "c"⟩ "wh" = "pid_A" ∧
    findLatestPaid [⟨"", 100, "Paid", d0, d0, d0, d0, "n1"⟩] ""
      = some ⟨"", 100, "Paid", d0, d0, d0, d0, "n1"⟩ ∧
    (handleCancelledScenario "wh"
        ⟨.ok ⟨"pid_A", some "", 100, "o", none, "c"⟩, true, .error "e", .ok⟩
        [⟨"", 100, "Paid", d0, d0, d0, d0, "n1"⟩]).result
      = .error "기존 결제 정보를 찾을 수 없습니다: 데이터 없음" :=
  ⟨rfl, rfl, rfl, rfl, rfl⟩

/-- **C7, amended.** In the Cancelled flow the canonical ledger lookup
key is resolved with this precedence: the detail's `paymentId` field
if present and non-empty, else the detail's `id` field if non-empty,
else the webhook's original `payment_id`; the ledger query for the
prior `Paid` row uses exactly this key (a row found under it drives
the reversal insert, and with no `Paid` row under it the handler
fails with no insert). -/
theorem cancelled_lookup_key_precedence_amended (pid : String) (p : PortonePayment)
    (qres : Except String PaymentScheduleResponse) (cOk : FetchOutcome)
    (ledger : List PaymentRecord) (f : PaymentRecord)
    (hf : findLatestPaid ledger (actualPaymentIdOf p pid) = some f) :
    (∀ q : PortonePayment, ∀ wid : String,
      actualPaymentIdOf q wid = amendedCanonicalKey q wid) ∧
    (handleCancelledScenario pid ⟨.ok p, true, qres, cOk⟩ ledger).ledger
      = ledger ++ [cancelRecordOf f] ∧
    (handleCancelledScenario pid ⟨.ok p, true, qres, cOk⟩ ledger).result
      = .ok (Response.ok "취소 처리 완료" (cancelRecordOf f)) ∧
    (∀ led2 : List PaymentRecord,
      findLatestPaid led2 (actualPaymentIdOf p pid) = none →
      (handleCancelledScenario pid ⟨.ok p, true, qres, cOk⟩ led2).result
          = .error "기존 결제 정보를 찾을 수 없습니다: 데이터 없음" ∧
      (handleCancelledScenario pid ⟨.ok p, true, qres, cOk⟩ led2).ledger = led2) := by
  refine ⟨?_, ?_, ?_, ?_⟩
  · intro q wid
    cases hq : q.paymentId with
    | none =>
      by_cases hid : q.id = "" <;>
        simp [actualPaymentIdOf, amendedCanonicalKey, jsOr, truthyStr, optStr, hq, hid]
    | some s =>
      by_cases hs : s = "" <;> by_cases hid : q.id = "" <;>
        simp [actualPaymentIdOf, amendedCanonicalKey, jsOr, truthyStr, optStr, hq, hs, hid]
  · rw [handleCancelledScenario_ok pid p qres cOk ledger f hf]
  · rw [handleCancelledScenario_ok pid p qres cOk ledger f hf]
  · intro led2 hnone
    rw [handleCancelledScenario_notFound pid p true qres cOk led2 hnone]
    exact ⟨rfl, rfl⟩

theorem cancelled_lookup_key_precedence_amended_witness :
    findLatestPaid [sampleRow] (actualPaymentIdOf samplePaid "pay_1") = some sampleRow ∧
    ((∀ q : PortonePayment, ∀ wid : String,
      actualPaymentIdOf q wid = amendedCanonicalKey q wid) ∧
    (handleCancelledScenario "pay_1" ⟨.ok samplePaid, true, .error "down", .ok⟩
        [sampleRow]).ledger = [sampleRow] ++ [cancelRecordOf sampleRow] ∧
    (handleCancelledScenario "pay_1" ⟨.ok samplePaid, true, .error "down", .ok⟩
        [sampleRow]).result = .ok (Response.ok "취소 처리 완료" (cancelRecordOf sampleRow)) ∧
    (∀ led2 : List PaymentRecord,
      findLatestPaid led2 (actualPaymentIdOf samplePaid "pay_1") = none →
      (handleCancelledScenario "pay_1" ⟨.ok samplePaid, true, .error "down", .ok⟩
          led2).result = .error "기존 결제 정보를 찾을 수 없습니다: 데이터 없음" ∧
      (handleCancelledScenario "pay_1" ⟨.ok samplePaid, true, .error "down", .ok⟩
          led2).ledger = led2)) :=
  ⟨rfl, cancelled_lookup_key_precedence_amended "pay_1" samplePaid (.error "down") .ok
    [sampleRow] sampleRow rfl⟩

/-- **C8.** For every inbound event whose status tag is neither
`"Paid"` nor `"Cancelled"`, the dispatcher returns the bare
`{ success: true }` and performs no side effect: no gateway call is
made and no ledger row is inserted. -/
theorem unknown_status_noop (payload : WebhookPayload) (penv : PaidEnv)
    (cenv : CancelledEnv) (ledger : List PaymentRecord)
    (h1 : payload.status ≠ "Paid") (h2 : payload.status ≠ "Cancelled") :
    POST payload penv cenv ledger = (Response.okEmpty, ledger, []) := by
  have hb1 : (payload.status == "Paid") = false := by
    simp [h1]
  have hb2 : (payload.status == "Cancelled") = false := by
    simp [h2]
  simp [POST, hb1, hb2]

theorem unknown_status_noop_witness :
    ("Refunded" : String) ≠ "Paid" ∧ ("Refunded" : String) ≠ "Cancelled" ∧
    POST ⟨"pay_1", "Refunded"⟩ ⟨.error "down", d0, m7, "uuid-1", true, .ok⟩
        ⟨.ok samplePaid, true, .error "down", .ok⟩ [sampleRow]
      = (Response.okEmpty, [sampleRow], []) :=
  ⟨by decide, by decide,
    unknown_status_noop ⟨"pay_1", "Refunded"⟩ ⟨.error "down", d0, m7, "uuid-1", true, .ok⟩
      ⟨.ok samplePaid, true, .error "down", .ok⟩ [sampleRow] (by decide) (by decide)⟩

/-- **C9, counterexample.** A Paid event whose payment detail carries
a present but empty `billingKey`: the claim says exactly one
`createSchedule` call follows the successful insert, but the
JavaScript guard `if (paymentData.billingKey)` treats `""` as falsy,
so the handler succeeds with zero schedule-creation calls. -/
theorem paid_schedule_creation_cex :
    (⟨"pay_1", none, 9900, "구독", some "", "cust_1"⟩ : PortonePayment).billingKey.isSome
        = true ∧
    (handlePaidScenario "pay_1"
        ⟨.ok ⟨"pay_1", none, 9900, "구독", some "", "cust_1"⟩, d0, m7, "uuid-1", true, .ok⟩
        []).calls = [GatewayCall.getPayment "pay_1"] ∧
    ((handlePaidScenario "pay_1"
        ⟨.ok ⟨"pay_1", none, 9900, "구독", some "", "cust_1"⟩, d0, m7, "uuid-1", true, .ok⟩
        []).calls.filter GatewayCall.isCreateSchedule).length = 0 ∧
    (handlePaidScenario "pay_1"
        ⟨.ok ⟨"pay_1", none, 9900, "구독", some "", "cust_1"⟩, d0, m7, "uuid-1", true, .ok⟩
        []).result
      = .ok (Response.ok "웹훅 처리 완료"
          (paidRecord "pay_1" ⟨"pay_1", none, 9900, "구독", some "", "cust_1"⟩ d0 m7 "uuid-1")) :=
  ⟨rfl, rfl, rfl, rfl⟩

/-- **C9, amended.** For every Paid event whose payment detail has a
non-empty `billingKey`, after the ledger insert succeeds the handler
makes exactly one `createSchedule` call, keyed by the freshly minted
`next_schedule_id` as the schedule's payment id, carrying the detail's
`billingKey`, `orderName`, customer id and amount total, currency
fixed to `"KRW"`, and `timeToPay` equal to the computed
`next_schedule_at`. -/
theorem paid_schedule_creation_args_amended (pid i : String) (pOpt : Option String)
    (amt : Int) (ord cust s : String) (hs : s ≠ "") (now : DateTime) (m : Fin 60)
    (sid : String) (schedOk : Bool) (ledger : List PaymentRecord) :
    (handlePaidScenario pid ⟨.ok ⟨i, pOpt, amt, ord, some s, cust⟩, now, m, sid, true, resolvedOutcome schedOk⟩
        ledger).calls
      = [GatewayCall.getPayment pid,
         GatewayCall.createSchedule sid s ord cust amt "KRW"
           (paidRecord pid ⟨i, pOpt, amt, ord, some s, cust⟩ now m sid).next_schedule_at] ∧
    (paidRecord pid ⟨i, pOpt, amt, ord, some s, cust⟩ now m sid).next_schedule_id = sid ∧
    ((handlePaidScenario pid ⟨.ok ⟨i, pOpt, amt, ord, some s, cust⟩, now, m, sid, true, resolvedOutcome schedOk⟩
        ledger).calls.filter GatewayCall.isCreateSchedule).length = 1 := by
  rw [handlePaidScenario_ok pid ⟨i, pOpt, amt, ord, some s, cust⟩ now m sid (resolvedOutcome schedOk) ledger]
  have ht : truthyOpt (some s) = true := by
    simp [truthyOpt, truthyStr, hs]
  refine ⟨?_, rfl, ?_⟩ <;>
    simp [ht, optStr, List.filter, GatewayCall.isCreateSchedule]

theorem paid_schedule_creation_args_amended_witness :
    ("bk_1" : String) ≠ "" ∧
    ((handlePaidScenario "pay_1"
        ⟨.ok ⟨"pay_1", none, 9900, "구독", some "bk_1", "cust_1"⟩, d0, m7, "uuid-1", true, .ok⟩
        []).calls
      = [GatewayCall.getPayment "pay_1",
         GatewayCall.createSchedule "uuid-1" "bk_1" "구독" "cust_1" 9900 "KRW"
           (paidRecord "pay_1" ⟨"pay_1", none, 9900, "구독", some "bk_1", "cust_1"⟩
             d0 m7 "uuid-1").next_schedule_at] ∧
    (paidRecord "pay_1" ⟨"pay_1", none, 9900, "구독", some "bk_1", "cust_1"⟩
        d0 m7 "uuid-1").next_schedule_id = "uuid-1" ∧
    ((handlePaidScenario "pay_1"
        ⟨.ok ⟨"pay_1", none, 9900, "구독", some "bk_1", "cust_1"⟩, d0, m7, "uuid-1", true, .ok⟩
        []).calls.filter GatewayCall.isCreateSchedule).length = 1) :=
  ⟨by decide, paid_schedule_creation_args_amended "pay_1" "pay_1" none 9900 "구독" "cust_1"
    "bk_1" (by decide) d0 m7 "uuid-1" true []⟩

/-- **C10.** Whenever the Cancelled flow reaches the schedule step
(non-empty `billingKey`, found `Paid` row with non-empty
`next_schedule_id`, successful query), the `cancelSchedules` calls it
makes are exactly: a single call whose argument is the singleton list
of the gateway schedule id of the first response item whose
`paymentId` equals the found entry's `next_schedule_id`, when such an
item exists; and none at all when the response lacks an `items` array
or no item matches — and the handler returns success either way. -/
theorem cancel_schedules_singleton_target (pid i : String) (pOpt : Option String)
    (amt : Int) (ord cust s : String) (hs : s ≠ "")
    (resp : PaymentScheduleResponse) (cOk : FetchOutcome) (ledger : List PaymentRecord)
    (f : PaymentRecord)
    (hf : findLatestPaid ledger (actualPaymentIdOf ⟨i, pOpt, amt, ord, some s, cust⟩ pid)
      = some f)
    (hid : f.next_schedule_id ≠ "") :
    ((handleCancelledScenario pid ⟨.ok ⟨i, pOpt, amt, ord, some s, cust⟩, true, .ok resp, cOk⟩
        ledger).calls.filter GatewayCall.isCancelSchedules)
      = (match (resp.items.getD []).find? (fun it => it.paymentId == f.next_schedule_id) with
         | some it => [GatewayCall.cancelSchedules [it.id]]
         | none => []) ∧
    (handleCancelledScenario pid ⟨.ok ⟨i, pOpt, amt, ord, some s, cust⟩, true, .ok resp, cOk⟩
        ledger).result = .ok (Response.ok "취소 처리 완료" (cancelRecordOf f)) := by
  rw [handleCancelledScenario_ok pid ⟨i, pOpt, amt, ord, some s, cust⟩ (.ok resp) cOk
    ledger f hf]
  have ht : truthyOpt (some s) = true := by
    simp [truthyOpt, truthyStr, hs]
  have htid : truthyStr f.next_schedule_id = true := by
    simp [truthyStr, hid]
  refine ⟨?_, rfl⟩
  cases hfind : (resp.items.getD []).find? (fun it => it.paymentId == f.next_schedule_id) <;>
    simp [cancelStepCalls, ht, htid, hfind, List.filter, GatewayCall.isCancelSchedules]

theorem cancel_schedules_singleton_target_witness :
    ("bk_1" : String) ≠ "" ∧
    findLatestPaid [sampleRow]
        (actualPaymentIdOf ⟨"pay_1", none, 9900, "구독", some "bk_1", "cust_1"⟩ "pay_1")
      = some sampleRow ∧
    sampleRow.next_schedule_id ≠ "" ∧
    (((handleCancelledScenario "pay_1"
        ⟨.ok ⟨"pay_1", none, 9900, "구독", some "bk_1", "cust_1"⟩, true,
          .ok ⟨some [⟨"sch_1", "uuid-1"⟩]⟩, .ok⟩
        [sampleRow]).calls.filter GatewayCall.isCancelSchedules)
      = (match ((⟨some [⟨"sch_1", "uuid-1"⟩]⟩ : PaymentScheduleResponse).items.getD
            []).find? (fun it => it.paymentId == sampleRow.next_schedule_id) with
         | some it => [GatewayCall.cancelSchedules [it.id]]
         | none => []) ∧
    (handleCancelledScenario "pay_1"
        ⟨.ok ⟨"pay_1", none, 9900, "구독", some "bk_1", "cust_1"⟩, true,
          .ok ⟨some [⟨"sch_1", "uuid-1"⟩]⟩, .ok⟩
        [sampleRow]).result = .ok (Response.ok "취소 처리 완료" (cancelRecordOf sampleRow))) :=
  ⟨by decide, rfl, by decide,
    cancel_schedules_singleton_target "pay_1" "pay_1" none 9900 "구독" "cust_1" "bk_1"
      (by decide) ⟨some [⟨"sch_1", "uuid-1"⟩]⟩ .ok [sampleRow] sampleRow rfl (by decide)⟩
